import Mathlib

/-!
Verification of the task-instance REST operations of a workflow
orchestration engine (`task_instances.py`): single and mapped task-instance
lookup, the tries (history) listing, blocking-dependency reporting, and the
clearing endpoint.  The relational store is modelled as explicit lists of
rows; HTTP 404 / 400 responses are modelled as `ApiError.NotFound` /
`ApiError.InvalidRequest`.  Collaborators that live outside the sampled
sources (the DAG-level clearing engine, the task-instance reset helper, the
DAG graph interface) are modelled from the specification and marked as such
in their doc comments.
-/

/-- Task-instance lifecycle states (`TaskInstanceState`).  The Python
`None` state is modelled as `Option.none` at use sites, mirroring NULL. -/
inductive TaskInstanceState
  | removed
  | scheduled
  | queued
  | running
  | success
  | restarting
  | failed
  | up_for_retry
  | up_for_reschedule
  | upstream_failed
  | skipped
  | deferred
  deriving DecidableEq, Repr

/-- Dag-run lifecycle states (`DagRunState`). -/
inductive DagRunState
  | queued
  | running
  | success
  | failed
  deriving DecidableEq, Repr

/-- A live task-instance row (`TaskInstance`), keyed by
(dag_id, run_id, task_id, map_index); `map_index = -1` is an unmapped task.
Only the fields the verified operations read or write are carried. -/
structure TaskInstance where
  dag_id : String
  run_id : String
  task_id : String
  map_index : Int
  state : Option TaskInstanceState
  try_number : Nat
  start_date : Option Nat
  end_date : Option Nat
  deriving DecidableEq, Repr

/-- An archived try (`TaskInstanceHistory`), keyed by the task-instance key
plus `try_number`. -/
structure TaskInstanceHistory where
  dag_id : String
  run_id : String
  task_id : String
  map_index : Int
  state : Option TaskInstanceState
  try_number : Nat
  start_date : Option Nat
  end_date : Option Nat
  deriving DecidableEq, Repr

/-- A dag-run row (`DagRun`), keyed by (dag_id, run_id). -/
structure DagRun where
  dag_id : String
  run_id : String
  logical_date : Option Nat
  state : DagRunState
  deriving DecidableEq, Repr

/-- The relational store: live task instances, archived tries, dag runs. -/
structure Store where
  task_instances : List TaskInstance
  task_instance_history : List TaskInstanceHistory
  dag_runs : List DagRun
  deriving DecidableEq, Repr

/-- Errors surfaced by the operations: `NotFound` models an HTTP 404,
`InvalidRequest` an HTTP 400, and `MultipleResults` the exception raised by
`one_or_none` when more than one row matches. -/
inductive ApiError
  | NotFound (msg : String)
  | InvalidRequest (msg : String)
  | MultipleResults
  deriving DecidableEq, Repr

/-- A task definition inside a DAG.  `needs_expansion` is the result of the
task's `get_needs_expansion()`: whether the definition declares dynamic
(mapped) expansion. -/
structure TaskDef where
  task_id : String
  needs_expansion : Bool
  deriving DecidableEq, Repr

/-- A resolved DAG: its id and its task dictionary. -/
structure Dag where
  dag_id : String
  task_dict : List TaskDef
  deriving DecidableEq, Repr

/-- Modelled from the spec: the DAG-definition provider interface
`get_task(task_id) -> TaskDefinition | fails(TaskNotFound)`; `none` models
the `TaskNotFound` exception. -/
def Dag.get_task (d : Dag) (tid : String) : Option TaskDef :=
  d.task_dict.find? (fun t => t.task_id == tid)

/-- The DAG bag: resolves a DAG either for a specific dag run
(`get_dag_for_run`) or at its latest version
(`get_latest_version_of_dag`); `none` models a failed resolution. -/
structure DagBag where
  get_dag_for_run : DagRun → Option Dag
  get_latest_version_of_dag : String → Option Dag

/-- One failing dependency produced by an evaluation:
`{"name": dep.dep_name, "reason": dep.reason}`. -/
structure DependencyStatus where
  name : String
  reason : String
  deriving DecidableEq, Repr

/-- Equality of operation results is decidable, so witnesses can be checked
by evaluation. -/
instance {ε α : Type} [DecidableEq ε] [DecidableEq α] : DecidableEq (Except ε α) := fun x y =>
  match x, y with
  | .ok a, .ok b =>
    if h : a = b then .isTrue (congrArg Except.ok h)
    else .isFalse (fun hc => h (Except.ok.inj hc))
  | .error e, .error e' =>
    if h : e = e' then .isTrue (congrArg Except.error h)
    else .isFalse (fun hc => h (Except.error.inj hc))
  | .ok _, .error _ => .isFalse (fun hc => Except.noConfusion hc)
  | .error _, .ok _ => .isFalse (fun hc => Except.noConfusion hc)

/-- The dag-run row owning a task instance (the `TI.dag_run`
relationship). -/
def runOfTI (st : Store) (ti : TaskInstance) : Option DagRun :=
  st.dag_runs.find? (fun dr => dr.dag_id == ti.dag_id && dr.run_id == ti.run_id)

/-- Whether a task instance has an owning dag-run row; the queries built
with `.join(TI.dag_run)` only return rows satisfying this. -/
def hasRun (st : Store) (ti : TaskInstance) : Bool :=
  (runOfTI st ti).isSome

/-- The row predicate of the single task-instance lookup query:
`TI.dag_id == dag_id, TI.run_id == dag_run_id, TI.task_id == task_id`
joined to `TI.dag_run`. -/
def tiMatches (st : Store) (dag_id dag_run_id task_id : String) (ti : TaskInstance) : Bool :=
  ti.dag_id == dag_id && ti.run_id == dag_run_id && ti.task_id == task_id && hasRun st ti

/-- `get_task_instance`: the map-index-less lookup of a single task
instance.  `session.scalar` returns the first row of the result, modelled
as the head of the filtered store; an empty result is a 404, and a first
row whose `map_index` is not `-1` is also a 404 telling the caller the task
instance is mapped. -/
def get_task_instance (st : Store) (dag_id dag_run_id task_id : String) :
    Except ApiError TaskInstance :=
  match st.task_instances.filter (tiMatches st dag_id dag_run_id task_id) with
  | [] =>
    .error (.NotFound ("The Task Instance with dag_id: `" ++ dag_id ++ "`, run_id: `" ++
      dag_run_id ++ "` and task_id: `" ++ task_id ++ "` was not found"))
  | ti :: _ =>
    if ti.map_index != -1 then
      .error (.NotFound "Task instance is mapped, add the map_index value to the URL")
    else
      .ok ti

/-- DAG resolution used when a mapped-instance query matches zero rows
(`get_mapped_task_instances` lines 184–188): resolve through the dag run
when it exists, otherwise through the latest version of the DAG. -/
def resolveDag (st : Store) (bag : DagBag) (dag_id dag_run_id : String) : Option Dag :=
  match st.dag_runs.find? (fun dr => dr.dag_id == dag_id && dr.run_id == dag_run_id) with
  | some dr => bag.get_dag_for_run dr
  | none => bag.get_latest_version_of_dag dag_id

/-- The row predicate of the mapped-instances query:
same key columns plus `TI.map_index >= 0`, joined to `TI.dag_run`. -/
def mappedTiMatches (st : Store) (dag_id dag_run_id task_id : String) (ti : TaskInstance) : Bool :=
  ti.dag_id == dag_id && ti.run_id == dag_run_id && ti.task_id == task_id &&
    decide (0 ≤ ti.map_index) && hasRun st ti

/-- `get_mapped_task_instances`: lists the mapped instances of one task.
Zero rows is not an automatic 404: the task definition is consulted, and
only a missing DAG, a missing task id (`TaskNotFound`), or a task that does
not declare expansion produce a 404; a genuinely mapped task with zero rows
succeeds with an empty collection.  The optional range/state filters and
pagination of the endpoint are taken at their defaults (no-ops). -/
def get_mapped_task_instances (st : Store) (bag : DagBag)
    (dag_id dag_run_id task_id : String) : Except ApiError (List TaskInstance) :=
  let rows := st.task_instances.filter (mappedTiMatches st dag_id dag_run_id task_id)
  if rows.length == 0 then
    match resolveDag st bag dag_id dag_run_id with
    | none => .error (.NotFound ("DAG " ++ dag_id ++ " not found"))
    | some dag =>
      match dag.get_task task_id with
      | none => .error (.NotFound ("Task id " ++ task_id ++ " not found"))
      | some task =>
        if !task.needs_expansion then
          .error (.NotFound ("Task id " ++ task_id ++ " is not mapped"))
        else
          .ok rows
  else
    .ok rows

/-- Code-point lexicographic comparison of character lists: the order the
Python string comparison used by `sorted(..., key=lambda x: x["name"])`
induces on dependency names. -/
def charListLe : List Char → List Char → Bool
  | [], _ => true
  | _ :: _, [] => false
  | a :: as, b :: bs => if a < b then true else if b < a then false else charListLe as bs

/-- The sort key order of the dependency listing: ascending dependency
name. -/
def depLe (a b : DependencyStatus) : Prop :=
  charListLe a.name.data b.name.data = true

instance : DecidableRel depLe :=
  fun a b => instDecidableEqBool (charListLe a.name.data b.name.data) true

/-- The `sorted(..., key=lambda x: x["name"])` step of the dependency
listing, as a stable insertion sort on the name order. -/
def sortDeps (l : List DependencyStatus) : List DependencyStatus :=
  List.insertionSort depLe l

/-- The row predicate of the dependency lookup query: all four key columns,
no dag-run join. -/
def depTiMatches (dag_id dag_run_id task_id : String) (map_index : Int)
    (ti : TaskInstance) : Bool :=
  ti.dag_id == dag_id && ti.run_id == dag_run_id && ti.task_id == task_id &&
    ti.map_index == map_index

/-- `get_task_instance_dependencies`: reports the dependencies blocking a
task instance from getting scheduled.  `one_or_none` is modelled by
matching on the filtered rows (`MultipleResults` when more than one row
matches the key).  Dependency policies are only consulted when the state is
`None` or `scheduled` and the DAG and task resolve; the external
`ti.get_failed_dep_statuses` evaluator is a parameter.  A missing owning
dag run resolves to no DAG, leaving the list empty. -/
def get_task_instance_dependencies (st : Store) (bag : DagBag)
    (get_failed_dep_statuses : TaskInstance → List DependencyStatus)
    (dag_id dag_run_id task_id : String) (map_index : Int) :
    Except ApiError (List DependencyStatus) :=
  match st.task_instances.filter (depTiMatches dag_id dag_run_id task_id map_index) with
  | [] =>
    .error (.NotFound ("The Task Instance with dag_id: `" ++ dag_id ++ "`, run_id: `" ++
      dag_run_id ++ "`, task_id: `" ++ task_id ++ "` and map_index was not found"))
  | [ti] =>
    if ti.state == none || ti.state == some TaskInstanceState.scheduled then
      match (runOfTI st ti).bind bag.get_dag_for_run with
      | none => .ok []
      | some dag =>
        match dag.get_task ti.task_id with
        | none => .ok []
        | some _ => .ok (sortDeps (get_failed_dep_statuses ti))
    else
      .ok []
  | _ :: _ :: _ => .error .MultipleResults

/-- The key predicate of the tries query, shared by the live and history
lookups (the `_query` helper of `get_task_instance_tries`). -/
def tryKeyMatchesTI (dag_id dag_run_id task_id : String) (map_index : Int)
    (ti : TaskInstance) : Bool :=
  ti.dag_id == dag_id && ti.run_id == dag_run_id && ti.task_id == task_id &&
    ti.map_index == map_index

/-- The key predicate of the tries query on history rows. -/
def tryKeyMatchesTIH (dag_id dag_run_id task_id : String) (map_index : Int)
    (h : TaskInstanceHistory) : Bool :=
  h.dag_id == dag_id && h.run_id == dag_run_id && h.task_id == task_id &&
    h.map_index == map_index

/-- The projection of a live task instance into the history-shaped response
row (`TaskInstanceHistoryResponse`). -/
def TaskInstance.toHistory (ti : TaskInstance) : TaskInstanceHistory :=
  { dag_id := ti.dag_id, run_id := ti.run_id, task_id := ti.task_id,
    map_index := ti.map_index, state := ti.state, try_number := ti.try_number,
    start_date := ti.start_date, end_date := ti.end_date }

/-- `get_task_instance_tries`: lists all tries of one task instance as
history rows followed by live rows, where live rows in state
`up_for_retry` are excluded (they are already recorded in the history) and
live rows with NULL state are kept (`or_(TI.state != UP_FOR_RETRY,
TI.state.is_(None))`); 404 exactly when the combined list is empty. -/
def get_task_instance_tries (st : Store) (dag_id dag_run_id task_id : String)
    (map_index : Int) : Except ApiError (List TaskInstanceHistory) :=
  let tis := (st.task_instances.filter (fun ti =>
      tryKeyMatchesTI dag_id dag_run_id task_id map_index ti &&
        (ti.state != some TaskInstanceState.up_for_retry || ti.state == none))).map
    TaskInstance.toHistory
  let task_instances :=
    st.task_instance_history.filter (tryKeyMatchesTIH dag_id dag_run_id task_id map_index) ++ tis
  if task_instances.isEmpty then
    .error (.NotFound ("The Task Instance with dag_id: `" ++ dag_id ++ "`, run_id: `" ++
      dag_run_id ++ "`, task_id: `" ++ task_id ++ "` and map_index was not found"))
  else
    .ok task_instances

/-- The request body of the clearing endpoint (`ClearTaskInstancesBody`).
Tuple-shaped task ids are already reduced to their task-id component. -/
structure ClearTaskInstancesBody where
  dry_run : Bool
  task_ids : Option (List String)
  start_date : Option Nat
  end_date : Option Nat
  only_failed : Bool
  only_running : Bool
  reset_dag_runs : Bool
  dag_run_id : Option String
  include_upstream : Bool
  include_downstream : Bool
  include_future : Bool
  include_past : Bool
  run_on_latest_version : Bool
  deriving DecidableEq, Repr

/-- The composite key of a task instance. -/
def tiKey (ti : TaskInstance) : String × String × String × Int :=
  (ti.dag_id, ti.run_id, ti.task_id, ti.map_index)

/-- The (dag_id, run_id) key of the dag run owning a task instance. -/
def tiRunKey (ti : TaskInstance) : String × String :=
  (ti.dag_id, ti.run_id)

/-- Modelled from the spec: `clear_task_instances` (the task-instance reset
helper of the clearing engine, not among the sampled sources).  It archives
each affected try into the history unless its state is `up_for_retry` or
NULL, resets each affected task instance's state to NULL clearing the
try-specific fields while keeping `try_number`, and, when a dag-run state
is supplied, forces the owning dag runs to that state; without one the dag
runs are untouched. -/
def clear_task_instances (tis : List TaskInstance) (st : Store)
    (dag_run_state : Option DagRunState) : Store :=
  { task_instances := st.task_instances.map (fun ti =>
      if (tis.map tiKey).contains (tiKey ti) then
        { ti with state := none, start_date := none, end_date := none }
      else ti)
    task_instance_history := st.task_instance_history ++
      ((tis.filter (fun ti =>
          !(ti.state == none || ti.state == some TaskInstanceState.up_for_retry))).map
        TaskInstance.toHistory)
    dag_runs :=
      match dag_run_state with
      | none => st.dag_runs
      | some s => st.dag_runs.map (fun dr =>
          if (tis.map tiRunKey).contains (dr.dag_id, dr.run_id) then
            { dr with state := s }
          else dr) }

/-- The scope of one `DAG.clear` call as issued by the endpoint: one named
run, or a logical-date range with optional bounds. -/
inductive ClearScope
  | runScoped (run_id : String)
  | dateScoped (start_date end_date : Option Nat)
  deriving DecidableEq, Repr

/-- Modelled from the spec: membership of a run's logical timestamp in the
`[start_date, end_date]` window, where an absent bound leaves that side
open-ended; a run without a logical date only matches the fully open
window. -/
def inInterval (ld : Option Nat) (lo hi : Option Nat) : Bool :=
  match lo, hi with
  | none, none => true
  | _, _ =>
    match ld with
    | none => false
    | some d =>
      (match lo with | none => true | some l => decide (l ≤ d)) &&
        (match hi with | none => true | some h => decide (d ≤ h))

/-- Modelled from the spec: `DAG.clear` with `dry_run=True` (the clearing
engine, not among the sampled sources) — the read-only computation of the
affected set.  `only_failed` and `only_running` are mutually exclusive and
combining them is a caller error (`InvalidRequest`); otherwise the affected
set is the task instances of this DAG inside the scope (one named run, or
the runs whose logical timestamp falls in the date window), narrowed to the
supplied task ids and to the `failed`/`upstream_failed` (resp. `running`)
states when the corresponding flag is set. -/
def dagClear (st : Store) (dag : Dag) (task_ids : Option (List String))
    (only_failed only_running : Bool) (scope : ClearScope) :
    Except ApiError (List TaskInstance) :=
  if only_failed && only_running then
    .error (.InvalidRequest "only_failed and only_running are mutually exclusive")
  else
    .ok (st.task_instances.filter (fun ti =>
      ti.dag_id == dag.dag_id &&
      (match scope with
       | .runScoped rid => ti.run_id == rid
       | .dateScoped lo hi => inInterval ((runOfTI st ti).bind (·.logical_date)) lo hi) &&
      (match task_ids with
       | none => true
       | some tids => tids.contains ti.task_id) &&
      (!only_failed || (ti.state == some TaskInstanceState.failed ||
        ti.state == some TaskInstanceState.upstream_failed)) &&
      (!only_running || ti.state == some TaskInstanceState.running)))

/-- The dag-run-id handling of the clearing endpoint (lines 678–695): when
a run id is supplied, the run must exist, the DAG is re-resolved at that
run's version, combining with `include_past`/`include_future` is a 400, and
the date window collapses to the run's logical date; otherwise the body's
own window is kept. -/
def resolveClearWindow (st : Store) (bag : DagBag) (dag0 : Dag) (dag_id : String)
    (body : ClearTaskInstancesBody) : Except ApiError (Dag × Option Nat × Option Nat) :=
  match body.dag_run_id with
  | some rid =>
    match st.dag_runs.find? (fun dr => dr.dag_id == dag_id && dr.run_id == rid) with
    | none => .error (.NotFound ("Dag Run id " ++ rid ++ " not found in dag " ++ dag_id))
    | some dr =>
      match bag.get_dag_for_run dr with
      | none => .error (.NotFound ("DAG " ++ dag_id ++ " not found"))
      | some dagR =>
        if body.include_past || body.include_future then
          .error (.InvalidRequest
            "Cannot use include_past or include_future when dag_run_id is provided because logical_date is not applicable.")
        else
          .ok (dagR, dr.logical_date, dr.logical_date)
  | none => .ok (dag0, body.start_date, body.end_date)

/-- The task-id expansion of the clearing endpoint (lines 703–714): the DAG
is narrowed to the partial subset around the supplied task ids, and when
that subset holds more than one task every subset task id is appended to
the list (the source's `tid != task_id` guard compares a string with a
list and is always true). -/
def expandTaskIds (psub : Dag → List String → Bool → Bool → Dag) (dag1 : Dag)
    (body : ClearTaskInstancesBody) : Dag × Option (List String) :=
  match body.task_ids with
  | none => (dag1, none)
  | some tids =>
    let d2 := psub dag1 tids body.include_downstream body.include_upstream
    if d2.task_dict.length > 1 then
      (d2, some (tids ++ d2.task_dict.map (·.task_id)))
    else
      (d2, some tids)

/-- `post_clear_task_instances` up to and including the `dag.clear`
invocation, which the endpoint always performs with `dry_run=True`: the
computation of the affected set.  `psub` is the external
`DAG.partial_subset` collaborator. -/
def post_clear_preview (st : Store) (bag : DagBag)
    (psub : Dag → List String → Bool → Bool → Dag) (dag_id : String)
    (body : ClearTaskInstancesBody) : Except ApiError (List TaskInstance) :=
  match bag.get_latest_version_of_dag dag_id with
  | none => .error (.NotFound ("DAG " ++ dag_id ++ " not found"))
  | some dag0 =>
    match resolveClearWindow st bag dag0 dag_id body with
    | .error e => .error e
    | .ok (dag1, sd0, ed0) =>
      let sd := if body.include_past then none else sd0
      let ed := if body.include_future then none else ed0
      match expandTaskIds psub dag1 body with
      | (dag2, task_ids) =>
        match body.dag_run_id with
        | some rid =>
          if body.include_past || body.include_future then
            dagClear st dag2 task_ids body.only_failed body.only_running
              (.dateScoped sd ed)
          else
            dagClear st dag2 task_ids body.only_failed body.only_running
              (.runScoped rid)
        | none =>
          dagClear st dag2 task_ids body.only_failed body.only_running
            (.dateScoped sd ed)

/-- `post_clear_task_instances`: the clearing endpoint.  The affected set
is always computed read-only first; only when the body's `dry_run` is false
is `clear_task_instances` applied to exactly that set, forcing the owning
dag runs to `QUEUED` when `reset_dag_runs` is requested.  The final store
is returned alongside the response; every error path leaves it
untouched. -/
def post_clear_task_instances (st : Store) (bag : DagBag)
    (psub : Dag → List String → Bool → Bool → Dag) (dag_id : String)
    (body : ClearTaskInstancesBody) :
    Except ApiError (List TaskInstance) × Store :=
  match post_clear_preview st bag psub dag_id body with
  | .error e => (.error e, st)
  | .ok task_instances =>
    (.ok task_instances,
      if body.dry_run then st
      else
        clear_task_instances task_instances st
          (if body.reset_dag_runs then some DagRunState.queued else none))

/-- Concrete dag-run fixture. -/
def drF : DagRun :=
  { dag_id := "d", run_id := "r", logical_date := some 5, state := DagRunState.failed }

/-- Concrete failed unmapped task-instance fixture. -/
def tiF : TaskInstance :=
  { dag_id := "d", run_id := "r", task_id := "t", map_index := -1,
    state := some TaskInstanceState.failed, try_number := 1,
    start_date := some 10, end_date := some 20 }

/-- Concrete DAG fixture holding one non-expanding task. -/
def dagF : Dag := { dag_id := "d", task_dict := [{ task_id := "t", needs_expansion := false }] }

/-- Concrete store fixture. -/
def stFix : Store :=
  { task_instances := [tiF], task_instance_history := [], dag_runs := [drF] }

/-- Concrete DAG bag fixture resolving everything to `dagF`. -/
def bagFix : DagBag :=
  { get_dag_for_run := fun _ => some dagF,
    get_latest_version_of_dag := fun did => if did == "d" then some dagF else none }

/-- Concrete partial-subset collaborator fixture: the identity subgraph. -/
def psubFix : Dag → List String → Bool → Bool → Dag := fun d _ _ _ => d

/-- Concrete mapped task-instance fixture. -/
def tiMapped : TaskInstance := { tiF with map_index := 0, state := some TaskInstanceState.success }

/-- Store fixture holding only the mapped row. -/
def stMapped : Store :=
  { task_instances := [tiMapped], task_instance_history := [], dag_runs := [drF] }

/-- The empty store fixture. -/
def stEmpty : Store :=
  { task_instances := [], task_instance_history := [], dag_runs := [] }

/-- A DAG fixture whose single task declares expansion. -/
def dagMapped : Dag := { dag_id := "dm", task_dict := [{ task_id := "tm", needs_expansion := true }] }

/-- A DAG bag fixture resolving `dm` to `dagMapped`. -/
def bagMapped : DagBag :=
  { get_dag_for_run := fun _ => some dagMapped,
    get_latest_version_of_dag := fun did => if did == "dm" then some dagMapped else none }

/-- A running task-instance fixture. -/
def tiRunning : TaskInstance := { tiF with state := some TaskInstanceState.running }

/-- A store fixture holding only the running instance. -/
def stRunning : Store :=
  { task_instances := [tiRunning], task_instance_history := [], dag_runs := [drF] }

/-- An evaluator fixture that would report one failing dependency. -/
def depEvalFix : TaskInstance → List DependencyStatus :=
  fun _ => [{ name := "pool", reason := "pool full" }]

/-- A NULL-state task-instance fixture eligible for dependency
evaluation. -/
def tiEligible : TaskInstance := { tiF with state := none, try_number := 0 }

/-- A store fixture holding only the eligible instance. -/
def stEligible : Store :=
  { task_instances := [tiEligible], task_instance_history := [], dag_runs := [drF] }

/-- An evaluator fixture producing two failing dependencies out of name
order. -/
def depEvalTwo : TaskInstance → List DependencyStatus :=
  fun _ => [{ name := "pool", reason := "pool full" },
            { name := "deps", reason := "upstream not done" }]

/-- The same two failing dependencies produced in the opposite order. -/
def depEvalTwoRev : TaskInstance → List DependencyStatus :=
  fun _ => [{ name := "deps", reason := "upstream not done" },
            { name := "pool", reason := "pool full" }]

/-- A run-scoped clearing body fixture with `dry_run=true`,
`only_failed=true` and `reset_dag_runs=true`. -/
def bodyDry : ClearTaskInstancesBody :=
  { dry_run := true, task_ids := none, start_date := none, end_date := none,
    only_failed := true, only_running := false, reset_dag_runs := true,
    dag_run_id := some "r", include_upstream := false, include_downstream := false,
    include_future := false, include_past := false, run_on_latest_version := false }

/-- A date-scoped clearing body fixture: `include_past` drops the lower
bound `100`, the upper bound `5` still admits the fixture run. -/
def bodyPast : ClearTaskInstancesBody :=
  { bodyDry with
    dag_run_id := none, only_failed := false, include_past := true,
    start_date := some 100, end_date := some 5 }

theorem charListLe_total (as bs : List Char) :
    charListLe as bs = true ∨ charListLe bs as = true := by
  induction as generalizing bs with
  | nil => left; rfl
  | cons a as ih =>
    cases bs with
    | nil => right; rfl
    | cons b bs =>
      by_cases hab : a < b
      · left; simp [charListLe, hab]
      · by_cases hba : b < a
        · right; simp [charListLe, hba, hab]
        · rcases ih bs with h | h
          · left; simp [charListLe, hab, hba, h]
          · right; simp [charListLe, hab, hba, h]

theorem charListLe_trans (as bs cs : List Char) (h₁ : charListLe as bs = true)
    (h₂ : charListLe bs cs = true) : charListLe as cs = true := by
  induction as generalizing bs cs with
  | nil => rfl
  | cons a as ih =>
    cases bs with
    | nil => simp [charListLe] at h₁
    | cons b bs =>
      cases cs with
      | nil => simp [charListLe] at h₂
      | cons c cs =>
        simp only [charListLe] at h₁ h₂ ⊢
        by_cases hab : a < b
        · by_cases hbc : b < c
          · simp [lt_trans hab hbc]
          · by_cases hcb : c < b
            · simp [hbc, hcb] at h₂
            · have hbc' : b = c := le_antisymm (not_lt.mp hcb) (not_lt.mp hbc)
              subst hbc'
              simp [hab]
        · by_cases hba : b < a
          · simp [hab, hba] at h₁
          · have hab' : a = b := le_antisymm (not_lt.mp hba) (not_lt.mp hab)
            subst hab'
            simp [lt_irrefl] at h₁
            by_cases hac : a < c
            · simp [hac]
            · by_cases hca : c < a
              · simp [hac, hca] at h₂
              · simp [hac, hca] at h₂ ⊢
                exact ih bs cs h₁ h₂

theorem charListLe_antisymm (as bs : List Char) (h₁ : charListLe as bs = true)
    (h₂ : charListLe bs as = true) : as = bs := by
  induction as generalizing bs with
  | nil =>
    cases bs with
    | nil => rfl
    | cons b bs => simp [charListLe] at h₂
  | cons a as ih =>
    cases bs with
    | nil => simp [charListLe] at h₁
    | cons b bs =>
      simp only [charListLe] at h₁ h₂
      by_cases hab : a < b
      · simp [hab, asymm hab] at h₂
      · by_cases hba : b < a
        · simp [hab, hba] at h₁
        · have hab' : a = b := le_antisymm (not_lt.mp hba) (not_lt.mp hab)
          subst hab'
          simp [lt_irrefl] at h₁ h₂
          exact congrArg (a :: ·) (ih bs h₁ h₂)

instance : IsTotal DependencyStatus depLe :=
  ⟨fun a b => charListLe_total a.name.data b.name.data⟩

instance : IsTrans DependencyStatus depLe :=
  ⟨fun a b c => charListLe_trans a.name.data b.name.data c.name.data⟩

theorem depLe_antisymm_name {a b : DependencyStatus} (h₁ : depLe a b) (h₂ : depLe b a) :
    a.name = b.name :=
  String.ext (charListLe_antisymm a.name.data b.name.data h₁ h₂)

/-- C9: the unmapped single task-instance lookup 404s whenever the rows
matching (dag_id, run_id, task_id) are all mapped rows (map_index ≠ -1),
reporting that a map_index is required, even though matching rows exist;
it returns the task instance exactly when the matching row has
map_index = -1. -/
theorem claim_C9_unmapped_lookup_map_index (st : Store)
    (dag_id dag_run_id task_id : String) :
    ((∃ ti ∈ st.task_instances,
        tiMatches st dag_id dag_run_id task_id ti = true ∧ ti.map_index ≠ -1) →
      (∀ ti ∈ st.task_instances,
        tiMatches st dag_id dag_run_id task_id ti = true → ti.map_index ≠ -1) →
      get_task_instance st dag_id dag_run_id task_id =
        .error (.NotFound "Task instance is mapped, add the map_index value to the URL")) ∧
    (∀ ti ∈ st.task_instances, tiMatches st dag_id dag_run_id task_id ti = true →
      ti.map_index = -1 →
      (∀ ti' ∈ st.task_instances, tiMatches st dag_id dag_run_id task_id ti' = true →
        ti' = ti) →
      get_task_instance st dag_id dag_run_id task_id = .ok ti) := by
  constructor
  · rintro ⟨ti, hti, hmatch, -⟩ hall
    unfold get_task_instance
    cases hf : st.task_instances.filter (tiMatches st dag_id dag_run_id task_id) with
    | nil =>
      exact absurd (hf ▸ List.mem_filter.mpr ⟨hti, hmatch⟩) (List.not_mem_nil ti)
    | cons h t =>
      have hmem : h ∈ st.task_instances.filter (tiMatches st dag_id dag_run_id task_id) :=
        hf ▸ List.mem_cons_self h t
      have hh := List.mem_filter.mp hmem
      have hne : h.map_index ≠ -1 := hall h hh.1 hh.2
      simp [bne_iff_ne, hne]
  · intro ti hti hmatch hidx huniq
    unfold get_task_instance
    cases hf : st.task_instances.filter (tiMatches st dag_id dag_run_id task_id) with
    | nil =>
      exact absurd (hf ▸ List.mem_filter.mpr ⟨hti, hmatch⟩) (List.not_mem_nil ti)
    | cons h t =>
      have hmem : h ∈ st.task_instances.filter (tiMatches st dag_id dag_run_id task_id) :=
        hf ▸ List.mem_cons_self h t
      have hh := List.mem_filter.mp hmem
      have : h = ti := huniq h hh.1 hh.2
      subst this
      simp [bne_iff_ne, hidx]

theorem claim_C9_witness :
    get_task_instance stMapped "d" "r" "t" =
      .error (.NotFound "Task instance is mapped, add the map_index value to the URL") :=
  (claim_C9_unmapped_lookup_map_index stMapped "d" "r" "t").1
    ⟨tiMapped, by decide, by decide, by decide⟩
    (by decide)

/-- Boolean filter of the tries query on a live row's state, as a
proposition: `or_(TI.state != UP_FOR_RETRY, TI.state.is_(None))` keeps
exactly the rows whose state is not `up_for_retry` (NULL included). -/
theorem retry_filter_iff (s : Option TaskInstanceState) :
    ((s != some TaskInstanceState.up_for_retry || s == none) = true) ↔
      s ≠ some TaskInstanceState.up_for_retry := by
  cases s <;> simp

/-- C10: the tries listing is the history rows for the composite key
followed by the live rows for that key that are not in state
`up_for_retry` (NULL-state live rows included), and it 404s exactly when
that combined collection is empty. -/
theorem claim_C10_tries_concat (st : Store) (dag_id dag_run_id task_id : String)
    (map_index : Int) :
    (get_task_instance_tries st dag_id dag_run_id task_id map_index =
        .error (.NotFound ("The Task Instance with dag_id: `" ++ dag_id ++ "`, run_id: `" ++
          dag_run_id ++ "`, task_id: `" ++ task_id ++ "` and map_index was not found")) ↔
      st.task_instance_history.filter (tryKeyMatchesTIH dag_id dag_run_id task_id map_index) = [] ∧
      st.task_instances.filter (fun ti =>
        tryKeyMatchesTI dag_id dag_run_id task_id map_index ti &&
          (ti.state != some TaskInstanceState.up_for_retry || ti.state == none)) = []) ∧
    (∀ l, get_task_instance_tries st dag_id dag_run_id task_id map_index = .ok l →
      l = st.task_instance_history.filter (tryKeyMatchesTIH dag_id dag_run_id task_id map_index) ++
        (st.task_instances.filter (fun ti =>
          tryKeyMatchesTI dag_id dag_run_id task_id map_index ti &&
            (ti.state != some TaskInstanceState.up_for_retry || ti.state == none))).map
          TaskInstance.toHistory ∧
      ∀ x, x ∈ l ↔
        (x ∈ st.task_instance_history ∧
          tryKeyMatchesTIH dag_id dag_run_id task_id map_index x = true) ∨
        (∃ ti ∈ st.task_instances,
          tryKeyMatchesTI dag_id dag_run_id task_id map_index ti = true ∧
          ti.state ≠ some TaskInstanceState.up_for_retry ∧ x = ti.toHistory)) := by
  have hdef : get_task_instance_tries st dag_id dag_run_id task_id map_index =
      (if (st.task_instance_history.filter (tryKeyMatchesTIH dag_id dag_run_id task_id map_index) ++
          (st.task_instances.filter (fun ti =>
            tryKeyMatchesTI dag_id dag_run_id task_id map_index ti &&
              (ti.state != some TaskInstanceState.up_for_retry || ti.state == none))).map
            TaskInstance.toHistory).isEmpty then
        .error (.NotFound ("The Task Instance with dag_id: `" ++ dag_id ++ "`, run_id: `" ++
          dag_run_id ++ "`, task_id: `" ++ task_id ++ "` and map_index was not found"))
      else
        .ok (st.task_instance_history.filter (tryKeyMatchesTIH dag_id dag_run_id task_id map_index) ++
          (st.task_instances.filter (fun ti =>
            tryKeyMatchesTI dag_id dag_run_id task_id map_index ti &&
              (ti.state != some TaskInstanceState.up_for_retry || ti.state == none))).map
            TaskInstance.toHistory)) := rfl
  constructor
  · rw [hdef]
    by_cases hemp : (st.task_instance_history.filter (tryKeyMatchesTIH dag_id dag_run_id task_id map_index) ++
        (st.task_instances.filter (fun ti =>
          tryKeyMatchesTI dag_id dag_run_id task_id map_index ti &&
            (ti.state != some TaskInstanceState.up_for_retry || ti.state == none))).map
          TaskInstance.toHistory).isEmpty
    · rw [if_pos hemp]
      simp only [List.isEmpty_iff, List.append_eq_nil, List.map_eq_nil_iff] at hemp
      simp [hemp]
    · rw [if_neg hemp]
      simp only [List.isEmpty_iff, List.append_eq_nil, List.map_eq_nil_iff] at hemp
      constructor
      · intro h; exact absurd h (by simp)
      · intro h; exact absurd h hemp
  · intro l hl
    rw [hdef] at hl
    by_cases hemp : (st.task_instance_history.filter (tryKeyMatchesTIH dag_id dag_run_id task_id map_index) ++
        (st.task_instances.filter (fun ti =>
          tryKeyMatchesTI dag_id dag_run_id task_id map_index ti &&
            (ti.state != some TaskInstanceState.up_for_retry || ti.state == none))).map
          TaskInstance.toHistory).isEmpty
    · simp [hemp] at hl
    · simp only [hemp, if_neg, Bool.false_eq_true, not_false_eq_true, Except.ok.injEq] at hl
      subst hl
      refine ⟨rfl, ?_⟩
      intro x
      simp only [List.mem_append, List.mem_map, List.mem_filter, Bool.and_eq_true,
        retry_filter_iff]
      constructor
      · rintro (⟨hx, hkey⟩ | ⟨ti, ⟨hti, hkey, hstate⟩, hx⟩)
        · exact Or.inl ⟨hx, hkey⟩
        · exact Or.inr ⟨ti, hti, hkey, hstate, hx.symm⟩
      · rintro (⟨hx, hkey⟩ | ⟨ti, hti, hkey, hstate, hx⟩)
        · exact Or.inl ⟨hx, hkey⟩
        · exact Or.inr ⟨ti, ⟨hti, hkey, hstate⟩, hx.symm⟩

theorem claim_C10_witness :
    get_task_instance_tries stEmpty "d" "r" "t" (-1) =
      .error (.NotFound ("The Task Instance with dag_id: `" ++ "d" ++ "`, run_id: `" ++
        "r" ++ "`, task_id: `" ++ "t" ++ "` and map_index was not found")) :=
  ((claim_C10_tries_concat stEmpty "d" "r" "t" (-1)).1).mpr ⟨rfl, rfl⟩

/-- C3: a mapped-instance query matching zero rows is disambiguated by the
task definition, not the row count: with the DAG resolved, a task id absent
from the task dictionary 404s as `TaskNotFound`, a present task that
declares no expansion 404s as not-mapped, and a present task that declares
expansion succeeds with the empty collection. -/
theorem claim_C3_zero_rows_disambiguation (st : Store) (bag : DagBag)
    (dag_id dag_run_id task_id : String) (dag : Dag)
    (hrows : st.task_instances.filter (mappedTiMatches st dag_id dag_run_id task_id) = [])
    (hdag : resolveDag st bag dag_id dag_run_id = some dag) :
    (dag.get_task task_id = none →
      get_mapped_task_instances st bag dag_id dag_run_id task_id =
        .error (.NotFound ("Task id " ++ task_id ++ " not found"))) ∧
    (∀ t, dag.get_task task_id = some t → t.needs_expansion = false →
      get_mapped_task_instances st bag dag_id dag_run_id task_id =
        .error (.NotFound ("Task id " ++ task_id ++ " is not mapped"))) ∧
    (∀ t, dag.get_task task_id = some t → t.needs_expansion = true →
      get_mapped_task_instances st bag dag_id dag_run_id task_id = .ok []) := by
  refine ⟨fun hnone => ?_, fun t ht hexp => ?_, fun t ht hexp => ?_⟩
  · simp [get_mapped_task_instances, hrows, hdag, hnone]
  · simp [get_mapped_task_instances, hrows, hdag, ht, hexp]
  · simp [get_mapped_task_instances, hrows, hdag, ht, hexp]

theorem claim_C3_witness :
    get_mapped_task_instances stEmpty bagMapped "dm" "r" "tm" = .ok [] :=
  (claim_C3_zero_rows_disambiguation stEmpty bagMapped "dm" "r" "tm" dagMapped rfl rfl).2.2
    { task_id := "tm", needs_expansion := true } rfl rfl

/-- C4: for a task instance whose state is neither NULL nor `scheduled`,
the dependency listing returns the empty list for every possible dependency
evaluator — no dependency policy is consulted. -/
theorem claim_C4_short_circuit (st : Store) (bag : DagBag)
    (dag_id dag_run_id task_id : String) (map_index : Int) (ti : TaskInstance)
    (hone : st.task_instances.filter (depTiMatches dag_id dag_run_id task_id map_index) = [ti])
    (hnone : ti.state ≠ none)
    (hsched : ti.state ≠ some TaskInstanceState.scheduled) :
    ∀ f, get_task_instance_dependencies st bag f dag_id dag_run_id task_id map_index =
      .ok [] := by
  intro f
  unfold get_task_instance_dependencies
  rw [hone]
  simp [hnone, hsched]

theorem claim_C4_witness :
    get_task_instance_dependencies stRunning bagFix depEvalFix "d" "r" "t" (-1) = .ok [] :=
  claim_C4_short_circuit stRunning bagFix "d" "r" "t" (-1) tiRunning (by decide)
    (by decide) (by decide) depEvalFix

/-- Two lists sorted by dependency name that are permutations of each other
and whose names are pairwise distinct are equal. -/
theorem sortDeps_eq_of_perm (l₁ l₂ base : List DependencyStatus)
    (hp : l₁.Perm l₂) (h₁ : l₁.Perm base) (hnod : (base.map (fun d => d.name)).Nodup)
    (hs₁ : List.Sorted depLe l₁) (hs₂ : List.Sorted depLe l₂) : l₁ = l₂ := by
  refine List.Perm.eq_of_sorted (fun a b ha hb hab hba => ?_) hs₁ hs₂ hp
  have hname : a.name = b.name := depLe_antisymm_name hab hba
  have hamem : a ∈ base := h₁.mem_iff.mp ha
  have hbmem : b ∈ base := (hp.symm.trans h₁).mem_iff.mp hb
  exact List.inj_on_of_nodup_map hnod hamem hbmem hname

/-- C5: when dependency policies are evaluated (eligible state, DAG and
task resolve), the endpoint returns the evaluator's failing statuses sorted
ascending by dependency name; the output is a permutation of the evaluated
statuses, and (given pairwise distinct names) any evaluator producing the
same statuses in another order yields the identical response. -/
theorem claim_C5_sorted_by_name (st : Store) (bag : DagBag)
    (f : TaskInstance → List DependencyStatus)
    (dag_id dag_run_id task_id : String) (map_index : Int) (ti : TaskInstance)
    (dr : DagRun) (dag : Dag) (td : TaskDef)
    (hone : st.task_instances.filter (depTiMatches dag_id dag_run_id task_id map_index) = [ti])
    (helig : ti.state = none ∨ ti.state = some TaskInstanceState.scheduled)
    (hrun : runOfTI st ti = some dr)
    (hdagr : bag.get_dag_for_run dr = some dag)
    (htask : dag.get_task ti.task_id = some td) :
    get_task_instance_dependencies st bag f dag_id dag_run_id task_id map_index =
      .ok (sortDeps (f ti)) ∧
    List.Sorted depLe (sortDeps (f ti)) ∧
    (sortDeps (f ti)).Perm (f ti) ∧
    (∀ g, (g ti).Perm (f ti) → ((f ti).map (fun d => d.name)).Nodup →
      get_task_instance_dependencies st bag g dag_id dag_run_id task_id map_index =
        get_task_instance_dependencies st bag f dag_id dag_run_id task_id map_index) := by
  have hres : ∀ h : TaskInstance → List DependencyStatus,
      get_task_instance_dependencies st bag h dag_id dag_run_id task_id map_index =
        .ok (sortDeps (h ti)) := by
    intro h
    unfold get_task_instance_dependencies
    rw [hone]
    rcases helig with he | he <;>
      simp [he, hrun, hdagr, htask]
  refine ⟨hres f, List.sorted_insertionSort depLe (f ti),
    List.perm_insertionSort depLe (f ti), fun g hg hnod => ?_⟩
  rw [hres g, hres f]
  have heq : sortDeps (g ti) = sortDeps (f ti) := by
    refine sortDeps_eq_of_perm (sortDeps (g ti)) (sortDeps (f ti)) (f ti)
      ((List.perm_insertionSort depLe (g ti)).trans
        (hg.trans (List.perm_insertionSort depLe (f ti)).symm))
      ((List.perm_insertionSort depLe (g ti)).trans hg) hnod
      (List.sorted_insertionSort depLe (g ti)) (List.sorted_insertionSort depLe (f ti))
  rw [heq]

theorem claim_C5_witness :
    get_task_instance_dependencies stEligible bagFix depEvalTwo "d" "r" "t" (-1) =
      .ok [{ name := "deps", reason := "upstream not done" },
           { name := "pool", reason := "pool full" }] ∧
    get_task_instance_dependencies stEligible bagFix depEvalTwoRev "d" "r" "t" (-1) =
      get_task_instance_dependencies stEligible bagFix depEvalTwo "d" "r" "t" (-1) := by
  have h := claim_C5_sorted_by_name stEligible bagFix depEvalTwo "d" "r" "t" (-1)
    tiEligible drF dagF { task_id := "t", needs_expansion := false }
    (by decide) (Or.inl rfl) (by decide) rfl rfl
  exact ⟨h.1.trans (by decide), h.2.2.2 depEvalTwoRev (by decide) (by decide)⟩

/-- C2: a clearing request naming a dag run that also sets `include_past`
or `include_future` fails with `InvalidRequest` (HTTP 400) before the
affected set is even computed, and the store is left untouched — no task
instance or dag run is modified. -/
theorem claim_C2_run_id_past_future (st : Store) (bag : DagBag)
    (psub : Dag → List String → Bool → Bool → Dag) (dag_id : String)
    (body : ClearTaskInstancesBody) (dag0 : Dag) (rid : String) (dr : DagRun) (dagR : Dag)
    (hlatest : bag.get_latest_version_of_dag dag_id = some dag0)
    (hrid : body.dag_run_id = some rid)
    (hdr : st.dag_runs.find? (fun r => r.dag_id == dag_id && r.run_id == rid) = some dr)
    (hdagR : bag.get_dag_for_run dr = some dagR)
    (hpf : body.include_past = true ∨ body.include_future = true) :
    post_clear_task_instances st bag psub dag_id body =
      (.error (.InvalidRequest
        "Cannot use include_past or include_future when dag_run_id is provided because logical_date is not applicable."),
       st) := by
  have hcond : (body.include_past || body.include_future) = true := by
    rcases hpf with h | h <;> simp [h]
  unfold post_clear_task_instances post_clear_preview resolveClearWindow
  simp [hlatest, hrid, hdr, hdagR, hcond]

theorem claim_C2_witness :
    post_clear_task_instances stFix bagFix psubFix "d" { bodyDry with include_past := true } =
      (.error (.InvalidRequest
        "Cannot use include_past or include_future when dag_run_id is provided because logical_date is not applicable."),
       stFix) :=
  claim_C2_run_id_past_future stFix bagFix psubFix "d" { bodyDry with include_past := true }
    dagF "r" drF dagF rfl rfl (by decide) rfl (Or.inl rfl)

/-- C6: a clearing request combining `only_failed` and `only_running`
fails with `InvalidRequest` whenever it reaches the clearing engine (for a
run-scoped request the run must exist and the past/future flags be off,
or the earlier checks fire first); the combination is never silently
resolved and the store is left untouched — no task instance is cleared. -/
theorem claim_C6_failed_running_exclusive (st : Store) (bag : DagBag)
    (psub : Dag → List String → Bool → Bool → Dag) (dag_id : String)
    (body : ClearTaskInstancesBody) (dag0 : Dag)
    (hlatest : bag.get_latest_version_of_dag dag_id = some dag0)
    (hof : body.only_failed = true) (hor : body.only_running = true)
    (hscope : body.dag_run_id = none ∨
      ∃ rid dr dagR, body.dag_run_id = some rid ∧
        st.dag_runs.find? (fun r => r.dag_id == dag_id && r.run_id == rid) = some dr ∧
        bag.get_dag_for_run dr = some dagR ∧
        body.include_past = false ∧ body.include_future = false) :
    post_clear_task_instances st bag psub dag_id body =
      (.error (.InvalidRequest "only_failed and only_running are mutually exclusive"),
       st) := by
  rcases hscope with hnone | ⟨rid, dr, dagR, hrid, hdr, hdagR, hpast, hfut⟩
  · rcases hexp : expandTaskIds psub dag0 body with ⟨dag2, tids⟩
    unfold post_clear_task_instances post_clear_preview resolveClearWindow
    simp [hlatest, hnone, hexp, dagClear, hof, hor]
  · rcases hexp : expandTaskIds psub dagR body with ⟨dag2, tids⟩
    unfold post_clear_task_instances post_clear_preview resolveClearWindow
    simp [hlatest, hrid, hdr, hdagR, hpast, hfut, hexp, dagClear, hof, hor]

theorem claim_C6_witness :
    post_clear_task_instances stFix bagFix psubFix "d"
        { bodyDry with only_running := true, dag_run_id := none } =
      (.error (.InvalidRequest "only_failed and only_running are mutually exclusive"),
       stFix) :=
  claim_C6_failed_running_exclusive stFix bagFix psubFix "d"
    { bodyDry with only_running := true, dag_run_id := none } dagF rfl rfl rfl
    (Or.inl rfl)

/-- C7: for a date-range-scoped clearing request (no dag_run_id, no task
subset, no state filters), `include_past` removes the lower bound and
`include_future` removes the upper bound of the `[start_date, end_date]`
window, and the affected set is exactly the task instances of this DAG
whose owning run's logical timestamp falls in the resulting interval. -/
theorem claim_C7_past_future_bounds (st : Store) (bag : DagBag)
    (psub : Dag → List String → Bool → Bool → Dag) (dag_id : String)
    (body : ClearTaskInstancesBody) (dag0 : Dag)
    (hlatest : bag.get_latest_version_of_dag dag_id = some dag0)
    (hrid : body.dag_run_id = none)
    (htids : body.task_ids = none)
    (hof : body.only_failed = false) (hor : body.only_running = false) :
    (post_clear_task_instances st bag psub dag_id body).1 =
      .ok (st.task_instances.filter (fun ti =>
        ti.dag_id == dag0.dag_id &&
        inInterval ((runOfTI st ti).bind (fun dr => dr.logical_date))
          (if body.include_past then none else body.start_date)
          (if body.include_future then none else body.end_date))) := by
  unfold post_clear_task_instances post_clear_preview resolveClearWindow expandTaskIds
  simp [hlatest, hrid, htids, dagClear, hof, hor]

theorem claim_C7_witness :
    (post_clear_task_instances stFix bagFix psubFix "d" bodyPast).1 = .ok [tiF] :=
  (claim_C7_past_future_bounds stFix bagFix psubFix "d" bodyPast dagF rfl rfl rfl rfl
    rfl).trans (congrArg Except.ok (by decide))

/-- The affected-set computation never reads the body's `dry_run` flag: the
endpoint always invokes `dag.clear` with `dry_run=True`. -/
theorem post_clear_preview_dry_run (st : Store) (bag : DagBag)
    (psub : Dag → List String → Bool → Bool → Dag) (dag_id : String)
    (body : ClearTaskInstancesBody) (b : Bool) :
    post_clear_preview st bag psub dag_id { body with dry_run := b } =
      post_clear_preview st bag psub dag_id body := by
  cases body
  rfl

/-- C1: a clearing request with `dry_run=true` returns the affected set
with the store untouched — no task instance's state or try_number and no
dag run's state changes — and the same request re-issued with
`dry_run=false` against that untouched store mutates (through
`clear_task_instances`) exactly the set the dry run returned. -/
theorem claim_C1_dry_run_preview (st : Store) (bag : DagBag)
    (psub : Dag → List String → Bool → Bool → Dag) (dag_id : String)
    (body : ClearTaskInstancesBody)
    (hdry : body.dry_run = true) :
    (∀ tis stOut,
      post_clear_task_instances st bag psub dag_id body = (.ok tis, stOut) →
      stOut = st) ∧
    (∀ tis stOut,
      post_clear_task_instances st bag psub dag_id body = (.ok tis, stOut) →
      post_clear_task_instances st bag psub dag_id { body with dry_run := false } =
        (.ok tis,
         clear_task_instances tis st
           (if body.reset_dag_runs then some DagRunState.queued else none))) := by
  have hpres : post_clear_preview st bag psub dag_id { body with dry_run := false } =
      post_clear_preview st bag psub dag_id body :=
    post_clear_preview_dry_run st bag psub dag_id body false
  constructor
  · intro tis stOut h
    unfold post_clear_task_instances at h
    cases hprev : post_clear_preview st bag psub dag_id body with
    | error e => rw [hprev] at h; simp at h
    | ok l =>
      rw [hprev] at h
      simp [hdry] at h
      exact h.2.symm
  · intro tis stOut h
    unfold post_clear_task_instances at h ⊢
    cases hprev : post_clear_preview st bag psub dag_id body with
    | error e => rw [hprev] at h; simp at h
    | ok l =>
      rw [hprev] at h
      simp [hdry] at h
      rw [hpres, hprev]
      simp [h.1]

theorem claim_C1_witness :
    post_clear_task_instances stFix bagFix psubFix "d" { bodyDry with dry_run := false } =
      (.ok [tiF], clear_task_instances [tiF] stFix (some DagRunState.queued)) :=
  (claim_C1_dry_run_preview stFix bagFix psubFix "d" bodyDry rfl).2 [tiF] stFix
    (by decide)

/-- C8: a clearing request with `dry_run=false` resets every affected task
instance (same composite key, state NULL, try-specific start/end fields
cleared, try_number unchanged), leaves unaffected rows untouched, and —
exactly when `reset_dag_runs` is requested — forces the dag runs owning
affected rows to `QUEUED`, leaving all dag-run rows untouched otherwise. -/
theorem claim_C8_mutation (st : Store) (bag : DagBag)
    (psub : Dag → List String → Bool → Bool → Dag) (dag_id : String)
    (body : ClearTaskInstancesBody) (tis : List TaskInstance) (stOut : Store)
    (hdry : body.dry_run = false)
    (h : post_clear_task_instances st bag psub dag_id body = (.ok tis, stOut)) :
    (∀ ti ∈ st.task_instances, (tis.map tiKey).contains (tiKey ti) = true →
      ∃ ti' ∈ stOut.task_instances, tiKey ti' = tiKey ti ∧ ti'.state = none ∧
        ti'.start_date = none ∧ ti'.end_date = none ∧ ti'.try_number = ti.try_number) ∧
    (∀ ti ∈ st.task_instances, (tis.map tiKey).contains (tiKey ti) = false →
      ti ∈ stOut.task_instances) ∧
    (body.reset_dag_runs = true →
      (∀ dr ∈ st.dag_runs, (tis.map tiRunKey).contains (dr.dag_id, dr.run_id) = true →
        { dr with state := DagRunState.queued } ∈ stOut.dag_runs) ∧
      (∀ dr ∈ st.dag_runs, (tis.map tiRunKey).contains (dr.dag_id, dr.run_id) = false →
        dr ∈ stOut.dag_runs)) ∧
    (body.reset_dag_runs = false → stOut.dag_runs = st.dag_runs) := by
  have hst : stOut = clear_task_instances tis st
      (if body.reset_dag_runs then some DagRunState.queued else none) := by
    unfold post_clear_task_instances at h
    cases hprev : post_clear_preview st bag psub dag_id body with
    | error e => rw [hprev] at h; simp at h
    | ok l =>
      rw [hprev] at h
      simp [hdry] at h
      rw [← h.1]
      exact h.2.symm
  subst hst
  refine ⟨?_, ?_, fun hrst => ⟨?_, ?_⟩, fun hrst => ?_⟩
  · intro ti hti hc
    refine ⟨{ ti with state := none, start_date := none, end_date := none },
      ?_, rfl, rfl, rfl, rfl, rfl⟩
    exact List.mem_map.mpr ⟨ti, hti, by simp only [hc, eq_self_iff_true, if_true]⟩
  · intro ti hti hc
    exact List.mem_map.mpr ⟨ti, hti, by simp only [hc, Bool.false_eq_true, if_false]⟩
  · intro dr hdr hc
    rw [hrst]
    exact List.mem_map.mpr ⟨dr, hdr, by simp only [hc, eq_self_iff_true, if_true]⟩
  · intro dr hdr hc
    rw [hrst]
    exact List.mem_map.mpr ⟨dr, hdr, by simp only [hc, Bool.false_eq_true, if_false]⟩
  · rw [hrst]
    rfl

theorem claim_C8_witness :
    ({ drF with state := DagRunState.queued } ∈
      (clear_task_instances [tiF] stFix (some DagRunState.queued)).dag_runs) ∧
    (({ tiF with state := none, start_date := none, end_date := none } : TaskInstance) ∈
      (clear_task_instances [tiF] stFix (some DagRunState.queued)).task_instances) := by
  have h := claim_C8_mutation stFix bagFix psubFix "d" { bodyDry with dry_run := false }
    [tiF] (clear_task_instances [tiF] stFix (some DagRunState.queued)) rfl (by decide)
  exact ⟨(h.2.2.1 rfl).1 drF (by decide) (by decide), by decide⟩
